import Mathlib

/-!
Verification of the input-state manager and per-frame camera update of the
repository (src/lib.rs). The embedding covers `OpalAppInputState`,
`OpalAppInputManager` with its event handling and queries, and the
`MainEventsCleared` branch of `OpalApp::handle_event`, which performs the
per-frame camera movement. Floating-point scalars (`f32`, `f64`) are embedded
as exact rationals; the trigonometric rotation matrix computed by
`glam::Mat3A::from_euler(..).transpose()` is taken as an arbitrary matrix
parameter, since every verified property is independent of its entries.
-/

/-- Layout-independent logical key identifier (winit `VirtualKeyCode`),
restricted to the variants the program uses plus a catch-all for the rest. -/
inductive VirtualKeyCode where
  | W
  | S
  | A
  | D
  | E
  | C
  | Escape
  | otherKey (n : Nat)
deriving DecidableEq

/-- Physical scan code (winit `ScanCode`, a `u32`). -/
abbrev ScanCode := Nat

/-- winit `ElementState`. -/
inductive ElementState where
  | Pressed
  | Released
deriving DecidableEq

/-- A `FastHashMap<K, bool>` modelled as a partial boolean map; `mapInsert`
is `HashMap::insert`, which overwrites any existing entry. -/
def mapInsert {K : Type} [DecidableEq K] (m : K → Option Bool) (k : K) (v : Bool) :
    K → Option Bool :=
  fun code => if code = k then some v else m code

/-- The events `OpalAppInputManager::handle_event` reacts to: window
`KeyboardInput` events and device `MouseMotion` events. `otherEvent` stands
for every other `Event` variant, all of which fall into the `_ => {}` arm.
The `f64` mouse coordinates are embedded as rationals. -/
inductive AppEvent where
  | keyboardInput (scancode : ScanCode) (virtual_keycode : Option VirtualKeyCode)
      (state : ElementState)
  | mouseMotion (delta_x delta_y : ℚ)
  | otherEvent
deriving DecidableEq

/-- `OpalAppInputState`: one generation of input state (scan-code map,
keycode map, mouse delta). -/
structure OpalAppInputState where
  keyboard_scancode_state : ScanCode → Option Bool
  keyboard_keycode_state : VirtualKeyCode → Option Bool
  mouse_delta : ℚ × ℚ

/-- `derive(Default)` for `OpalAppInputState`: empty maps, zero delta. -/
def OpalAppInputState.default : OpalAppInputState where
  keyboard_scancode_state := fun _ => none
  keyboard_keycode_state := fun _ => none
  mouse_delta := (0, 0)

/-- `OpalAppInputManager`: the current and previous input generations. -/
structure OpalAppInputManager where
  input_state : OpalAppInputState
  prev_input_state : OpalAppInputState

/-- `derive(Default)` for `OpalAppInputManager`: both generations default. -/
def OpalAppInputManager.default : OpalAppInputManager where
  input_state := OpalAppInputState.default
  prev_input_state := OpalAppInputState.default

/-- `push_state`: `self.prev_input_state = self.input_state.clone()`. The
current generation is left untouched. -/
def OpalAppInputManager.push_state (m : OpalAppInputManager) : OpalAppInputManager :=
  { m with prev_input_state := m.input_state }

/-- The `match input.state` expression mapping `Pressed` to `true` and
`Released` to `false`. -/
def elementStateBool (s : ElementState) : Bool :=
  match s with
  | ElementState.Pressed => true
  | ElementState.Released => false

/-- `OpalAppInputManager::handle_event`: a keyboard event inserts into the
scan-code map and, when a virtual keycode is present, into the keycode map;
a mouse-motion event overwrites the current mouse delta; every other event
is ignored. Only the current generation is written. -/
def OpalAppInputManager.handle_event (m : OpalAppInputManager) (event : AppEvent) :
    OpalAppInputManager :=
  match event with
  | AppEvent.keyboardInput sc vk st =>
      let withScan :=
        { m.input_state with
          keyboard_scancode_state :=
            mapInsert m.input_state.keyboard_scancode_state sc (elementStateBool st) }
      let newState :=
        match vk with
        | some code =>
            { withScan with
              keyboard_keycode_state :=
                mapInsert withScan.keyboard_keycode_state code (elementStateBool st) }
        | none => withScan
      { m with input_state := newState }
  | AppEvent.mouseMotion dx dy =>
      { m with input_state := { m.input_state with mouse_delta := (dx, dy) } }
  | AppEvent.otherEvent => m

/-- Static `is_pressed`: `map.get(code).map_or(false, |v| *v)`. -/
def OpalAppInputManager.is_pressed {K : Type} (map : K → Option Bool) (code : K) : Bool :=
  (map code).getD false

/-- Static `is_just_pressed`: pressed in `map` and not pressed in `prev_map`. -/
def OpalAppInputManager.is_just_pressed {K : Type} (prev_map map : K → Option Bool)
    (code : K) : Bool :=
  OpalAppInputManager.is_pressed map code && !OpalAppInputManager.is_pressed prev_map code

/-- Static `is_just_released`: delegates to `is_just_pressed` with the two
maps swapped. -/
def OpalAppInputManager.is_just_released {K : Type} (prev_map map : K → Option Bool)
    (code : K) : Bool :=
  OpalAppInputManager.is_just_pressed map prev_map code

/-- `is_keycode_down(&mut self, ..)`: the Rust method takes `&mut self`, so it
is embedded state-passing style, returning the result together with the
manager it leaves behind. -/
def OpalAppInputManager.is_keycode_down (m : OpalAppInputManager)
    (code : VirtualKeyCode) : Bool × OpalAppInputManager :=
  (OpalAppInputManager.is_pressed m.input_state.keyboard_keycode_state code, m)

/-- `is_keycode_just_pressed(&mut self, ..)`, state-passing. -/
def OpalAppInputManager.is_keycode_just_pressed (m : OpalAppInputManager)
    (code : VirtualKeyCode) : Bool × OpalAppInputManager :=
  (OpalAppInputManager.is_just_pressed m.prev_input_state.keyboard_keycode_state
    m.input_state.keyboard_keycode_state code, m)

/-- `is_keycode_just_released(&mut self, ..)`, state-passing. -/
def OpalAppInputManager.is_keycode_just_released (m : OpalAppInputManager)
    (code : VirtualKeyCode) : Bool × OpalAppInputManager :=
  (OpalAppInputManager.is_just_released m.prev_input_state.keyboard_keycode_state
    m.input_state.keyboard_keycode_state code, m)

/-- Modelled from the spec: `consume_mouse_delta` is described in the spec
but absent from src/lib.rs (the recorded delta is never read there). Per the
spec it returns the current generation's delta and does not itself clear it. -/
def OpalAppInputManager.consume_mouse_delta (m : OpalAppInputManager) : ℚ × ℚ :=
  m.input_state.mouse_delta

/-- A `glam::Vec3A` embedded with exact rational components. -/
@[ext]
structure Vec3Q where
  x : ℚ
  y : ℚ
  z : ℚ
deriving DecidableEq

instance : Add Vec3Q :=
  ⟨fun a b => ⟨a.x + b.x, a.y + b.y, a.z + b.z⟩⟩

instance : Sub Vec3Q :=
  ⟨fun a b => ⟨a.x - b.x, a.y - b.y, a.z - b.z⟩⟩

instance : Neg Vec3Q :=
  ⟨fun a => ⟨-a.x, -a.y, -a.z⟩⟩

/-- Componentwise vector-times-scalar, as in `forward * velocity`. -/
def Vec3Q.scale (v : Vec3Q) (c : ℚ) : Vec3Q :=
  ⟨v.x * c, v.y * c, v.z * c⟩

theorem Vec3Q.add_x (a b : Vec3Q) : (a + b).x = a.x + b.x := rfl

theorem Vec3Q.add_y (a b : Vec3Q) : (a + b).y = a.y + b.y := rfl

theorem Vec3Q.add_z (a b : Vec3Q) : (a + b).z = a.z + b.z := rfl

theorem Vec3Q.sub_x (a b : Vec3Q) : (a - b).x = a.x - b.x := rfl

theorem Vec3Q.sub_y (a b : Vec3Q) : (a - b).y = a.y - b.y := rfl

theorem Vec3Q.sub_z (a b : Vec3Q) : (a - b).z = a.z - b.z := rfl

theorem Vec3Q.neg_x (a : Vec3Q) : (-a).x = -a.x := rfl

theorem Vec3Q.neg_y (a : Vec3Q) : (-a).y = -a.y := rfl

theorem Vec3Q.neg_z (a : Vec3Q) : (-a).z = -a.z := rfl

theorem Vec3Q.scale_x (a : Vec3Q) (c : ℚ) : (a.scale c).x = a.x * c := rfl

theorem Vec3Q.scale_y (a : Vec3Q) (c : ℚ) : (a.scale c).y = a.y * c := rfl

theorem Vec3Q.scale_z (a : Vec3Q) (c : ℚ) : (a.scale c).z = a.z * c := rfl

/-- A `glam::Mat3A` given by its three column axes. -/
structure Mat3Q where
  x_axis : Vec3Q
  y_axis : Vec3Q
  z_axis : Vec3Q

/-- The fields of `OpalAppRenderState` that the `MainEventsCleared` branch
reads or writes for camera movement: the camera pose and the input manager.
The frame-time bookkeeping fields are orthogonal to every claim and omitted. -/
structure RenderCore where
  camera_pos : Vec3Q
  camera_pitch : ℚ
  camera_yaw : ℚ
  input : OpalAppInputManager

/-- The `Event::MainEventsCleared` branch of `OpalApp::handle_event`
(src/lib.rs lines 348-422), restricted to camera movement and input state.
`rot` stands for `Mat3A::from_euler(EulerRot::XYZ, -pitch, -yaw, 0.0)
.transpose()`, whose trigonometric entries are not exactly representable;
it is passed as a parameter, and `forward`, `up`, `side` are derived from it
exactly as in the source. `elapsed_seconds` is `delta_time.as_secs_f32()`.
If Escape was just pressed the branch requests exit and returns before any
movement and before `push_state`; otherwise each held movement key adds its
displacement in source order and the branch ends with `push_state`. -/
def mainEventsCleared (rot : Mat3Q) (elapsed_seconds : ℚ) (rs : RenderCore) :
    RenderCore :=
  let escRes := rs.input.is_keycode_just_pressed VirtualKeyCode.Escape
  if escRes.1 then
    { rs with input := escRes.2 }
  else
    let forward := -rot.z_axis
    let up := rot.y_axis
    let side := -rot.x_axis
    let velocity := 10 * elapsed_seconds
    let r1 := escRes.2.is_keycode_down VirtualKeyCode.W
    let pos1 := if r1.1 then rs.camera_pos - forward.scale velocity else rs.camera_pos
    let r2 := r1.2.is_keycode_down VirtualKeyCode.S
    let pos2 := if r2.1 then pos1 + forward.scale velocity else pos1
    let r3 := r2.2.is_keycode_down VirtualKeyCode.A
    let pos3 := if r3.1 then pos2 + side.scale velocity else pos2
    let r4 := r3.2.is_keycode_down VirtualKeyCode.D
    let pos4 := if r4.1 then pos3 - side.scale velocity else pos3
    let r5 := r4.2.is_keycode_down VirtualKeyCode.E
    let pos5 := if r5.1 then pos4 + Vec3Q.mk 0 velocity 0 else pos4
    let r6 := r5.2.is_keycode_down VirtualKeyCode.C
    let pos6 := if r6.1 then pos5 - Vec3Q.mk 0 velocity 0 else pos5
    { rs with camera_pos := pos6, input := r6.2.push_state }

/-- C1 (counterexample to the claim as stated): record a mouse delta of
(3.5, -2.0), call `push_state`, then read the delta. The claim says the
result is (0, 0); the code retains (3.5, -2.0), because `push_state` only
copies the current generation into the previous one and never resets the
current mouse delta. -/
theorem C1_counterexample :
    ((OpalAppInputManager.default.handle_event
        (AppEvent.mouseMotion (7 / 2) (-2))).push_state).consume_mouse_delta =
      ((7 / 2 : ℚ), (-2 : ℚ)) ∧
    ((7 / 2 : ℚ), (-2 : ℚ)) ≠ ((0 : ℚ), (0 : ℚ)) := by
  constructor
  · rfl
  · simp [Prod.ext_iff]

/-- C1 (amended): after `push_state` the previous generation equals a full
copy of the current generation, and the current generation is entirely
unchanged — its key-held flags are retained and its mouse delta is retained
as well (not reset to zero). -/
theorem C1_push_state_copies_current (m : OpalAppInputManager) :
    (m.push_state).prev_input_state = m.input_state ∧
    (m.push_state).input_state = m.input_state :=
  ⟨rfl, rfl⟩

/-- C3: for every key and every manager state, `is_keycode_just_released`
returns true iff the key is held in the previous generation and not held in
the current generation. -/
theorem C3_just_released_iff (m : OpalAppInputManager) (code : VirtualKeyCode) :
    (m.is_keycode_just_released code).1 = true ↔
      (OpalAppInputManager.is_pressed m.prev_input_state.keyboard_keycode_state code
          = true ∧
        OpalAppInputManager.is_pressed m.input_state.keyboard_keycode_state code
          = false) := by
  simp [OpalAppInputManager.is_keycode_just_released,
    OpalAppInputManager.is_just_released, OpalAppInputManager.is_just_pressed,
    Bool.and_eq_true, Bool.not_eq_true', and_comm]

/-- C4: for every key and every manager state, `is_keycode_just_pressed`
returns true iff the key is held in the current generation and not held in
the previous generation; and since the query is computed from the two
generations and leaves the manager unchanged, repeating it yields the same
result. -/
theorem C4_just_pressed_iff_and_stable (m : OpalAppInputManager)
    (code : VirtualKeyCode) :
    ((m.is_keycode_just_pressed code).1 = true ↔
      (OpalAppInputManager.is_pressed m.input_state.keyboard_keycode_state code
          = true ∧
        OpalAppInputManager.is_pressed m.prev_input_state.keyboard_keycode_state code
          = false)) ∧
    ((m.is_keycode_just_pressed code).2.is_keycode_just_pressed code).1 =
      (m.is_keycode_just_pressed code).1 := by
  constructor
  · simp [OpalAppInputManager.is_keycode_just_pressed,
      OpalAppInputManager.is_just_pressed, Bool.and_eq_true, Bool.not_eq_true']
  · rfl

/-- C7: a mouse-motion event overwrites the current generation's delta, so
after any sequence of motion events the current delta equals the delta of
the last motion event, regardless of the manager's starting state. -/
theorem C7_motion_overwrites (m : OpalAppInputManager) (ds : List (ℚ × ℚ))
    (d : ℚ × ℚ) :
    (((ds ++ [d]).map fun p => AppEvent.mouseMotion p.1 p.2).foldl
        OpalAppInputManager.handle_event m).input_state.mouse_delta = d := by
  simp [List.foldl_append, OpalAppInputManager.handle_event]

/-- C8: the per-frame camera update leaves pitch and yaw unchanged for every
rotation matrix, elapsed time and render state; only the position (and the
input manager) are written. -/
theorem C8_update_preserves_pitch_yaw (rot : Mat3Q) (t : ℚ) (rs : RenderCore) :
    (mainEventsCleared rot t rs).camera_pitch = rs.camera_pitch ∧
    (mainEventsCleared rot t rs).camera_yaw = rs.camera_yaw := by
  simp only [mainEventsCleared]
  split <;> exact ⟨rfl, rfl⟩

/-- C9: each keycode query, though it takes `&mut self` in the source,
leaves the manager completely unchanged: the manager it passes back is the
manager it was given. -/
theorem C9_queries_leave_state_unchanged (m : OpalAppInputManager)
    (code : VirtualKeyCode) :
    (m.is_keycode_down code).2 = m ∧
    (m.is_keycode_just_pressed code).2 = m ∧
    (m.is_keycode_just_released code).2 = m :=
  ⟨rfl, rfl, rfl⟩

/-- C10: immediately after `push_state` the two generations are equal, so
both edge queries return false for every key. -/
theorem C10_after_advance_no_edges (m : OpalAppInputManager)
    (code : VirtualKeyCode) :
    (m.push_state).prev_input_state = (m.push_state).input_state ∧
    ((m.push_state).is_keycode_just_pressed code).1 = false ∧
    ((m.push_state).is_keycode_just_released code).1 = false := by
  refine ⟨rfl, ?_, ?_⟩ <;>
    simp [OpalAppInputManager.push_state, OpalAppInputManager.is_keycode_just_pressed,
      OpalAppInputManager.is_keycode_just_released, OpalAppInputManager.is_just_pressed,
      OpalAppInputManager.is_just_released]

/-- C5: if forward (W) and back (S) are both held while A, D, E and C are
not, one per-frame update leaves the camera position exactly unchanged for
every rotation matrix and every elapsed time: the two contributions are
added with opposite sign and cancel exactly. -/
theorem C5_opposite_actions_cancel (rot : Mat3Q) (t : ℚ) (rs : RenderCore)
    (hW : (rs.input.is_keycode_down VirtualKeyCode.W).1 = true)
    (hS : (rs.input.is_keycode_down VirtualKeyCode.S).1 = true)
    (hA : (rs.input.is_keycode_down VirtualKeyCode.A).1 = false)
    (hD : (rs.input.is_keycode_down VirtualKeyCode.D).1 = false)
    (hE : (rs.input.is_keycode_down VirtualKeyCode.E).1 = false)
    (hC : (rs.input.is_keycode_down VirtualKeyCode.C).1 = false) :
    (mainEventsCleared rot t rs).camera_pos = rs.camera_pos := by
  simp only [OpalAppInputManager.is_keycode_down] at hW hS hA hD hE hC
  simp only [mainEventsCleared, OpalAppInputManager.is_keycode_just_pressed,
    OpalAppInputManager.is_keycode_down, hW, hS, hA, hD, hE, hC]
  split
  · rfl
  · ext <;>
      simp [Vec3Q.add_x, Vec3Q.add_y, Vec3Q.add_z, Vec3Q.sub_x, Vec3Q.sub_y,
        Vec3Q.sub_z]

/-- A concrete manager with W and S held, for the C5 witness. -/
def c5Input : OpalAppInputManager :=
  (OpalAppInputManager.default.handle_event
      (AppEvent.keyboardInput 17 (some VirtualKeyCode.W) ElementState.Pressed)).handle_event
    (AppEvent.keyboardInput 31 (some VirtualKeyCode.S) ElementState.Pressed)

/-- Concrete render state for the C5 witness. -/
def c5State : RenderCore :=
  ⟨⟨1, 2, 3⟩, 0, 0, c5Input⟩

/-- C5 witness: the cancellation theorem applied at a concrete state with W
and S held, a concrete rotation matrix and elapsed time 3. -/
theorem C5_witness :
    (mainEventsCleared ⟨⟨1, 0, 0⟩, ⟨0, 1, 0⟩, ⟨0, 0, 1⟩⟩ 3 c5State).camera_pos =
      c5State.camera_pos :=
  C5_opposite_actions_cancel _ _ _ rfl rfl rfl rfl rfl rfl

/-- One interaction with the manager: either an incoming event
(`handle_event`) or a frame advance (`push_state`). -/
inductive Step where
  | ev (e : AppEvent)
  | advance
deriving DecidableEq

/-- Apply one step to the manager. -/
def applyStep (m : OpalAppInputManager) (s : Step) : OpalAppInputManager :=
  match s with
  | Step.ev e => m.handle_event e
  | Step.advance => m.push_state

/-- The manager state reached from construction (`Default`) by a sequence of
steps. -/
def runSteps (steps : List Step) : OpalAppInputManager :=
  steps.foldl applyStep OpalAppInputManager.default

/-- Whether a step records the given virtual keycode: only a keyboard event
whose resolved keycode is that key does. -/
def stepMentions (code : VirtualKeyCode) (s : Step) : Bool :=
  match s with
  | Step.ev (AppEvent.keyboardInput _ (some k) _) => decide (k = code)
  | _ => false

/-- Invariant behind C6: a keycode never mentioned by any step stays absent
from both generations' keycode maps. -/
theorem keycode_absent_invariant (code : VirtualKeyCode) (steps : List Step)
    (m : OpalAppInputManager)
    (h : ∀ s ∈ steps, stepMentions code s = false)
    (h1 : m.input_state.keyboard_keycode_state code = none)
    (h2 : m.prev_input_state.keyboard_keycode_state code = none) :
    (steps.foldl applyStep m).input_state.keyboard_keycode_state code = none ∧
    (steps.foldl applyStep m).prev_input_state.keyboard_keycode_state code = none := by
  induction steps generalizing m with
  | nil => exact ⟨h1, h2⟩
  | cons s rest ih =>
    have hs : stepMentions code s = false := h s (List.mem_cons_self s rest)
    have hrest : ∀ s2 ∈ rest, stepMentions code s2 = false :=
      fun s2 hm => h s2 (List.mem_cons_of_mem s hm)
    refine ih (applyStep m s) hrest ?_ ?_
    · cases s with
      | advance => exact h1
      | ev e =>
        cases e with
        | otherEvent => exact h1
        | mouseMotion dx dy => exact h1
        | keyboardInput sc vk st =>
          cases vk with
          | none => exact h1
          | some k =>
            have hk : ¬(code = k) := by
              intro hck
              simp [stepMentions, hck.symm] at hs
            simpa [applyStep, OpalAppInputManager.handle_event, mapInsert, hk] using h1
    · cases s with
      | advance => exact h1
      | ev e =>
        cases e with
        | otherEvent => exact h2
        | mouseMotion dx dy => exact h2
        | keyboardInput sc vk st =>
          cases vk with
          | none => exact h2
          | some k => exact h2

/-- C6: for a key never recorded by any step of any interaction sequence —
including the empty sequence, i.e. the state immediately after
construction — `is_keycode_down` and `is_keycode_just_pressed` both return
false; the queries are total and fall back to the not-held default. -/
theorem C6_unrecorded_key_defaults (steps : List Step) (code : VirtualKeyCode)
    (h : ∀ s ∈ steps, stepMentions code s = false) :
    ((runSteps steps).is_keycode_down code).1 = false ∧
    ((runSteps steps).is_keycode_just_pressed code).1 = false := by
  obtain ⟨h1, h2⟩ :=
    keycode_absent_invariant code steps OpalAppInputManager.default h rfl rfl
  constructor
  · simp [runSteps, OpalAppInputManager.is_keycode_down,
      OpalAppInputManager.is_pressed, h1]
  · simp [runSteps, OpalAppInputManager.is_keycode_just_pressed,
      OpalAppInputManager.is_just_pressed, OpalAppInputManager.is_pressed, h1, h2]

/-- C6 witness: after pressing S and advancing one frame, the never-recorded
key W is reported neither down nor just pressed. -/
theorem C6_witness :
    ((runSteps [Step.ev (AppEvent.keyboardInput 31 (some VirtualKeyCode.S)
        ElementState.Pressed), Step.advance]).is_keycode_down VirtualKeyCode.W).1
      = false ∧
    ((runSteps [Step.ev (AppEvent.keyboardInput 31 (some VirtualKeyCode.S)
        ElementState.Pressed), Step.advance]).is_keycode_just_pressed
        VirtualKeyCode.W).1 = false :=
  C6_unrecorded_key_defaults _ _ (by decide)

/-- If none of W, S, A, D, E, C is down, one per-frame update leaves the
camera position unchanged (whether or not the Escape edge fires). -/
theorem mainEventsCleared_stationary (rot : Mat3Q) (t : ℚ) (rs : RenderCore)
    (hW : (rs.input.is_keycode_down VirtualKeyCode.W).1 = false)
    (hS : (rs.input.is_keycode_down VirtualKeyCode.S).1 = false)
    (hA : (rs.input.is_keycode_down VirtualKeyCode.A).1 = false)
    (hD : (rs.input.is_keycode_down VirtualKeyCode.D).1 = false)
    (hE : (rs.input.is_keycode_down VirtualKeyCode.E).1 = false)
    (hC : (rs.input.is_keycode_down VirtualKeyCode.C).1 = false) :
    (mainEventsCleared rot t rs).camera_pos = rs.camera_pos := by
  simp only [OpalAppInputManager.is_keycode_down] at hW hS hA hD hE hC
  simp only [mainEventsCleared, OpalAppInputManager.is_keycode_just_pressed,
    OpalAppInputManager.is_keycode_down, hW, hS, hA, hD, hE, hC]
  split
  · rfl
  · simp

/-- The manager after construction followed by a key-down(W) event. -/
def c2AfterPress (sc : ScanCode) : OpalAppInputManager :=
  OpalAppInputManager.default.handle_event
    (AppEvent.keyboardInput sc (some VirtualKeyCode.W) ElementState.Pressed)

/-- The render state after one per-frame update with elapsed 0.5 s starting
from position `p0` with only W held (the speed constant in the source is 10). -/
def c2FirstUpdate (rot : Mat3Q) (p0 : Vec3Q) (pitch yaw : ℚ) (sc : ScanCode) :
    RenderCore :=
  mainEventsCleared rot (1 / 2) ⟨p0, pitch, yaw, c2AfterPress sc⟩

/-- The render state after then recording key-up(W), advancing the frame and
running a second update with arbitrary elapsed time `t2`. -/
def c2SecondUpdate (rot : Mat3Q) (p0 : Vec3Q) (pitch yaw : ℚ) (sc : ScanCode)
    (t2 : ℚ) : RenderCore :=
  let rs1 := c2FirstUpdate rot p0 pitch yaw sc
  mainEventsCleared rot t2
    { rs1 with
      input := (rs1.input.handle_event
        (AppEvent.keyboardInput sc (some VirtualKeyCode.W)
          ElementState.Released)).push_state }

/-- C2 (counterexample to the claim as stated): with the identity rotation
matrix, start position (0,0,0) and only W held, one update with elapsed 0.5
and speed 10 moves the position to (0,0,5); the claim predicts a move of +5
units along the computed forward vector, i.e. to (0,0,-5), since the source
computes `forward = -rotation.z_axis = (0,0,-1)` and then subtracts
`forward * velocity` for W. -/
theorem C2_counterexample :
    (c2FirstUpdate ⟨⟨1, 0, 0⟩, ⟨0, 1, 0⟩, ⟨0, 0, 1⟩⟩ ⟨0, 0, 0⟩ 0 0 17).camera_pos =
      ⟨0, 0, 5⟩ ∧
    (⟨0, 0, 5⟩ : Vec3Q) ≠
      (⟨0, 0, 0⟩ : Vec3Q) +
        (-(Mat3Q.mk ⟨1, 0, 0⟩ ⟨0, 1, 0⟩ ⟨0, 0, 1⟩).z_axis).scale 5 := by
  constructor
  · simp [c2FirstUpdate, c2AfterPress, mainEventsCleared,
      OpalAppInputManager.is_keycode_just_pressed, OpalAppInputManager.is_keycode_down,
      OpalAppInputManager.is_just_pressed, OpalAppInputManager.is_pressed,
      OpalAppInputManager.handle_event, OpalAppInputManager.default,
      OpalAppInputState.default, elementStateBool, mapInsert,
      OpalAppInputManager.push_state, Vec3Q.ext_iff, Vec3Q.sub_x, Vec3Q.sub_y,
      Vec3Q.sub_z, Vec3Q.neg_x, Vec3Q.neg_y, Vec3Q.neg_z, Vec3Q.scale_x,
      Vec3Q.scale_y, Vec3Q.scale_z]
    norm_num
  · simp [Vec3Q.ext_iff, Vec3Q.add_x, Vec3Q.add_y, Vec3Q.add_z, Vec3Q.neg_x,
      Vec3Q.neg_y, Vec3Q.neg_z, Vec3Q.scale_x, Vec3Q.scale_y, Vec3Q.scale_z]
    norm_num

/-- C2 (amended): starting from an empty manager, after key-down(W) one
per-frame update with elapsed 0.5 and speed 10 changes the camera position
by exactly 5 units along the NEGATION of the computed forward basis vector
(the source computes `forward = -rot.z_axis` and then moves `camera_pos`
by `-forward * velocity` for W); after recording key-up(W), advancing the
frame and updating again with any elapsed time, the position is unchanged. -/
theorem C2_w_update_displacement (rot : Mat3Q) (p0 : Vec3Q) (pitch yaw : ℚ)
    (sc : ScanCode) (t2 : ℚ) :
    (c2FirstUpdate rot p0 pitch yaw sc).camera_pos = p0 - (-rot.z_axis).scale 5 ∧
    (c2SecondUpdate rot p0 pitch yaw sc t2).camera_pos =
      (c2FirstUpdate rot p0 pitch yaw sc).camera_pos := by
  constructor
  · have hesc :
        ((c2AfterPress sc).is_keycode_just_pressed VirtualKeyCode.Escape).1 = false :=
      rfl
    have hW : ((c2AfterPress sc).is_keycode_down VirtualKeyCode.W).1 = true := rfl
    have hS : ((c2AfterPress sc).is_keycode_down VirtualKeyCode.S).1 = false := rfl
    have hA : ((c2AfterPress sc).is_keycode_down VirtualKeyCode.A).1 = false := rfl
    have hD : ((c2AfterPress sc).is_keycode_down VirtualKeyCode.D).1 = false := rfl
    have hE : ((c2AfterPress sc).is_keycode_down VirtualKeyCode.E).1 = false := rfl
    have hC : ((c2AfterPress sc).is_keycode_down VirtualKeyCode.C).1 = false := rfl
    simp only [OpalAppInputManager.is_keycode_just_pressed,
      OpalAppInputManager.is_keycode_down] at hesc hW hS hA hD hE hC
    have h5 : (10 : ℚ) * (1 / 2) = 5 := by norm_num
    simp [c2FirstUpdate, mainEventsCleared, OpalAppInputManager.is_keycode_just_pressed,
      OpalAppInputManager.is_keycode_down, hesc, hW, hS, hA, hD, hE, hC, h5]
    norm_num
  · exact mainEventsCleared_stationary rot t2 _ rfl rfl rfl rfl rfl rfl
